import Mathlib

/-!
Verification of the `sud` Go package (Single Use Dialers), a shallow
embedding of `src/sud.go`.

The package holds one optional connection in a mutex-guarded slot.
`DialContext` atomically takes the connection out of the slot on the first
call and returns the sentinel error `ErrNoConnReuse` on every later call;
`DialTLSContext` delegates to `DialContext`, discarding the TLS config.

Modelling choices:
- `net.Conn` values are an abstract type `Conn`; the possibly-nil field
  `conn net.Conn` is `Option Conn` (Go nil is `none`).
- Go errors are the inductive `GoError`; `errors.New` sentinels are
  constructors (identity comparison is constructor equality) and
  wrapping is the `wrapped` constructor, with `errorsIs` unwrapping as
  Go `errors.Is` does.
- Each method runs entirely under `sud.mu`, so it is one atomic step on
  the dialer state; a concurrent execution of N calls is therefore some
  serialization, modelled as a `List` of calls folded by `run`.
- Method arguments (context, network, address, TLS config) are carried
  explicitly so that argument-irrelevance is a statable fact rather than
  a modelling artifact.
-/

namespace Sud

/-- Go error values as needed by this package: the package sentinel,
arbitrary other base errors, and wrapping layers (as produced by
`fmt.Errorf` with a wrap verb). -/
inductive GoError where
  | errNoConnReuse : GoError
  | other : String → GoError
  | wrapped : String → GoError → GoError
deriving DecidableEq, Repr

/-- The message of an error, Go's `Error()` method; wrapping layers
prepend their own text. -/
def errorMessage : GoError → String
  | .errNoConnReuse => "cannot reuse connection"
  | .other s => s
  | .wrapped s e => s ++ ": " ++ errorMessage e

/-- Go `errors.Is`: compare for identity, then keep unwrapping. -/
def errorsIs (e target : GoError) : Bool :=
  e == target ||
    match e with
    | .wrapped _ inner => errorsIs inner target
    | _ => false

/-- `ErrNoConnReuse` from `src/sud.go`: the sentinel returned when dialing
more than once. -/
def ErrNoConnReuse : GoError := GoError.errNoConnReuse

/-- `SingleUseDialer` from `src/sud.go`. The mutex `mu` serializes the
methods and carries no data, so the state is just the `conn` slot. -/
structure SingleUseDialer (Conn : Type) where
  conn : Option Conn
deriving DecidableEq, Repr

/-- `NewSingleUseDialer` from `src/sud.go`: seed the slot with the given
(possibly nil) connection. -/
def NewSingleUseDialer {Conn : Type} (conn : Option Conn) : SingleUseDialer Conn :=
  { conn := conn }

/-- `DialContext` from `src/sud.go`, as one atomic step (the whole body
runs under `sud.mu`). Returns the Go result pair `(net.Conn, error)`
together with the dialer state after the call. The `ctx`, `network` and
`addr` arguments are received and ignored, as in the source. -/
def DialContext {Conn Ctx : Type} (sud : SingleUseDialer Conn)
    (ctx : Ctx) (network : String) (addr : String) :
    (Option Conn × Option GoError) × SingleUseDialer Conn :=
  match sud.conn with
  | none => ((none, some ErrNoConnReuse), sud)
  | some c => ((some c, none), { conn := none })

/-- `DialTLSContext` from `src/sud.go`: delegates to `DialContext`,
discarding the TLS config (`cfg` is `Option Cfg`; Go nil is `none`). -/
def DialTLSContext {Conn Ctx Cfg : Type} (d : SingleUseDialer Conn)
    (ctx : Ctx) (network : String) (address : String) (cfg : Option Cfg) :
    (Option Conn × Option GoError) × SingleUseDialer Conn :=
  DialContext d ctx network address

/-- One dial attempt: which method was invoked and with which arguments. -/
inductive Call (Ctx Cfg : Type) where
  | dial (ctx : Ctx) (network : String) (addr : String)
  | dialTLS (ctx : Ctx) (network : String) (address : String) (cfg : Option Cfg)
deriving DecidableEq, Repr

/-- Execute one call on the dialer. -/
def step {Conn Ctx Cfg : Type} (sud : SingleUseDialer Conn) :
    Call Ctx Cfg → (Option Conn × Option GoError) × SingleUseDialer Conn
  | .dial ctx network addr => DialContext sud ctx network addr
  | .dialTLS ctx network address cfg => DialTLSContext sud ctx network address cfg

/-- Execute a sequence of calls, collecting each call's result and the
final dialer state. Since each method is atomic under the mutex, every
concurrent execution is `run` over some serialization order. -/
def run {Conn Ctx Cfg : Type} (sud : SingleUseDialer Conn) :
    List (Call Ctx Cfg) → List (Option Conn × Option GoError) × SingleUseDialer Conn
  | [] => ([], sud)
  | c :: cs =>
      let p := step sud c
      let q := run p.2 cs
      (p.1 :: q.1, q.2)

/-- Number of calls in a result list that returned without error. -/
def successCount {Conn : Type} (rs : List (Option Conn × Option GoError)) : Nat :=
  rs.countP fun r => r.2.isNone

/-- A call on a spent (or empty-seeded) dialer fails with the sentinel and
leaves the state untouched. -/
lemma step_spent {Conn Ctx Cfg : Type} (sud : SingleUseDialer Conn)
    (call : Call Ctx Cfg) (h : sud.conn = none) :
    step sud call = ((none, some ErrNoConnReuse), sud) := by
  cases call <;> simp [step, DialContext, DialTLSContext, h]

/-- A call on a loaded dialer returns the connection and empties the slot. -/
lemma step_loaded {Conn Ctx Cfg : Type} (sud : SingleUseDialer Conn)
    (call : Call Ctx Cfg) (c : Conn) (h : sud.conn = some c) :
    step sud call = ((some c, none), ⟨none⟩) := by
  cases call <;> simp [step, DialContext, DialTLSContext, h]

/-- Running any call sequence on a spent dialer yields only sentinel
failures and keeps the state spent. -/
lemma run_spent {Conn Ctx Cfg : Type} (sud : SingleUseDialer Conn)
    (calls : List (Call Ctx Cfg)) (h : sud.conn = none) :
    run sud calls =
      (List.replicate calls.length (none, some ErrNoConnReuse), sud) := by
  induction calls with
  | nil => simp [run]
  | cons c cs ih => simp [run, step_spent sud c h, ih, List.replicate_succ]

/-- Running a nonempty call sequence on a freshly loaded dialer: the first
call wins, all later calls fail with the sentinel. -/
lemma run_fresh_loaded {Conn Ctx Cfg : Type} (c : Conn)
    (calls : List (Call Ctx Cfg)) (h : calls ≠ []) :
    (run (NewSingleUseDialer (some c)) calls).1 =
      (some c, none) ::
        List.replicate (calls.length - 1) (none, some ErrNoConnReuse) := by
  cases calls with
  | nil => exact absurd rfl h
  | cons hd tl =>
      have hstep : step (NewSingleUseDialer (some c)) hd = ((some c, none), ⟨none⟩) :=
        step_loaded _ hd c rfl
      have hrest := @run_spent Conn Ctx Cfg ⟨none⟩ tl rfl
      simp [run, hstep, hrest]

/-- The success counter ignores any block of sentinel failures. -/
lemma successCount_replicate_fail {Conn : Type} (n : Nat) :
    successCount (List.replicate n ((none : Option Conn), some ErrNoConnReuse)) = 0 := by
  induction n with
  | zero => simp [successCount]
  | succ k ih =>
      simp only [List.replicate_succ, successCount, List.countP_cons] at *
      simp [ih]

/-- `errors.Is` still finds a target under any tower of wrapping layers. -/
lemma errorsIs_foldr_wrapped (e target : GoError) (msgs : List String)
    (h : errorsIs e target = true) :
    errorsIs (msgs.foldr GoError.wrapped e) target = true := by
  induction msgs with
  | nil => simpa using h
  | cons m ms ih =>
      simp only [List.foldr_cons]
      rw [errorsIs]
      simp [ih]

/-- Claim C1: for every N >= 1, under N concurrent `DialContext` calls on a
fresh dialer seeded with connection `c` — modelled, via the mutex that makes
each call atomic, as an arbitrary nonempty serialization of the calls with
arbitrary argument tuples — exactly the first serialized call returns `c`
with no error and the other N - 1 calls return a nil connection and
`ErrNoConnReuse`; no call returns another error kind or another
connection. -/
theorem concurrent_take_exactness (Conn Ctx : Type) (c : Conn)
    (args : List (Ctx × String × String)) (h : args ≠ []) :
    (run (NewSingleUseDialer (some c))
        (args.map fun a => (Call.dial a.1 a.2.1 a.2.2 : Call Ctx Unit))).1 =
      (some c, none) ::
        List.replicate (args.length - 1) (none, some ErrNoConnReuse) := by
  have hne : (args.map fun a => (Call.dial a.1 a.2.1 a.2.2 : Call Ctx Unit)) ≠ [] := by
    simpa using h
  simpa using run_fresh_loaded c _ hne

/-- Witness for C1 at two concrete concurrent calls. -/
theorem concurrent_take_exactness_witness :
    (run (NewSingleUseDialer (some 7))
        (([((), "tcp", "example.com:443"), ((), "udp", "other.host:80")]).map
          fun a => (Call.dial a.1 a.2.1 a.2.2 : Call Unit Unit))).1 =
      (some 7, none) ::
        List.replicate (2 - 1) ((none : Option Nat), some ErrNoConnReuse) :=
  concurrent_take_exactness Nat Unit 7 _ (by simp)

/-- Claim C2: a dialer built from a non-nil connection `c` has exactly `c`
in its slot, and a single `DialContext` call on it returns `c` with no
error, for any context, network and address. -/
theorem first_dial_succeeds (Conn Ctx : Type) (c : Conn)
    (ctx : Ctx) (network : String) (addr : String) :
    (NewSingleUseDialer (some c)).conn = some c ∧
      (DialContext (NewSingleUseDialer (some c)) ctx network addr).1 =
        (some c, none) := by
  exact ⟨rfl, rfl⟩

/-- Claim C3: after one successful take (through either method), every
subsequent take call on the same dialer returns a nil connection and an
error on which the `errors.Is` check against `ErrNoConnReuse` succeeds. -/
theorem exhaustion_after_success (Conn Ctx Cfg : Type)
    (sud sud' : SingleUseDialer Conn) (call : Call Ctx Cfg) (c : Conn)
    (hwin : step sud call = ((some c, none), sud'))
    (calls : List (Call Ctx Cfg)) (r : Option Conn × Option GoError)
    (hmem : r ∈ (run sud' calls).1) :
    r.1 = none ∧ ∃ e, r.2 = some e ∧ errorsIs e ErrNoConnReuse = true := by
  have hspent : sud'.conn = none := by
    cases call <;>
      simp only [step, DialContext, DialTLSContext] at hwin <;>
      cases hconn : sud.conn <;> rw [hconn] at hwin <;>
      simp at hwin <;> rw [← hwin.2]
  rw [run_spent sud' calls hspent] at hmem
  have := List.eq_of_mem_replicate hmem
  subst this
  exact ⟨rfl, ErrNoConnReuse, rfl, by decide⟩

/-- Witness for C3: a concrete winning call followed by a failing one. -/
theorem exhaustion_after_success_witness :
    ((none : Option Nat), some ErrNoConnReuse).1 = none ∧
      ∃ e, ((none : Option Nat), some ErrNoConnReuse).2 = some e ∧
        errorsIs e ErrNoConnReuse = true :=
  exhaustion_after_success Nat Unit Unit ⟨some 3⟩ ⟨none⟩
    (Call.dial () "tcp" "example.com:443") 3 rfl
    [Call.dialTLS () "tcp" "example.com:443" none]
    (none, some ErrNoConnReuse) (by decide)

/-- Claim C4: from construction, any call sequence hands the connection out
to at most one caller, and once the slot is empty no call ever makes it
non-empty again. -/
theorem slot_monotone_at_most_one_success (Conn Ctx Cfg : Type)
    (conn : Option Conn) (calls : List (Call Ctx Cfg)) :
    successCount (run (NewSingleUseDialer conn) calls).1 ≤ 1 ∧
      ∀ (sud : SingleUseDialer Conn) (call : Call Ctx Cfg),
        sud.conn = none → ((step sud call).2).conn = none := by
  constructor
  · cases conn with
    | none =>
        rw [run_spent (NewSingleUseDialer none) calls rfl]
        simp [successCount_replicate_fail]
    | some c =>
        cases calls with
        | nil => simp [run, successCount]
        | cons hd tl =>
            rw [run_fresh_loaded c (hd :: tl) (by simp)]
            simp only [successCount, List.countP_cons]
            have := @successCount_replicate_fail Conn ((hd :: tl).length - 1)
            simp only [successCount] at this
            simp [this]
  · intro sud call hnone
    rw [step_spent sud call hnone]
    exact hnone

/-- Witness for C4: the emptiness-preservation half at a concrete spent
dialer. -/
theorem slot_monotone_at_most_one_success_witness :
    ((step (⟨none⟩ : SingleUseDialer Nat)
        (Call.dial () "tcp" "example.com:443" : Call Unit Unit)).2).conn = none :=
  (slot_monotone_at_most_one_success Nat Unit Unit none []).2
    ⟨none⟩ (Call.dial () "tcp" "example.com:443") rfl

/-- Claim C5: for every dialer state and all arguments, including any TLS
config (present or nil), `DialTLSContext` returns exactly the result and
exactly the successor state that `DialContext` yields on the same state
with the same context, network and address. -/
theorem tls_dial_delegates (Conn Ctx Cfg : Type) (d : SingleUseDialer Conn)
    (ctx : Ctx) (network : String) (address : String) (cfg : Option Cfg) :
    DialTLSContext d ctx network address cfg = DialContext d ctx network address :=
  rfl

/-- Claim C6: the outcome and the successor state of a take call depend
only on the dialer state, never on the call's context, network, address,
security configuration, or even which of the two methods was invoked. -/
theorem arguments_irrelevant (Conn Ctx Cfg : Type) (d : SingleUseDialer Conn)
    (c1 c2 : Call Ctx Cfg) :
    step d c1 = step d c2 := by
  cases c1 <;> cases c2 <;> rfl

/-- Claim C7: the sentinel `ErrNoConnReuse` has message "cannot reuse
connection", and for any error returned by a losing call (through either
method, from any state), the `errors.Is` check against the sentinel
succeeds, even after the error is wrapped by any tower of intermediate
layers. -/
theorem sentinel_identity :
    errorMessage ErrNoConnReuse = "cannot reuse connection" ∧
      ∀ (Conn Ctx Cfg : Type) (d : SingleUseDialer Conn) (call : Call Ctx Cfg)
        (e : GoError), (step d call).1.2 = some e →
          ∀ msgs : List String,
            errorsIs (msgs.foldr GoError.wrapped e) ErrNoConnReuse = true := by
  refine ⟨rfl, ?_⟩
  intro Conn Ctx Cfg d call e hfail msgs
  have he : e = ErrNoConnReuse := by
    cases call <;>
      simp only [step, DialContext, DialTLSContext] at hfail <;>
      cases hconn : d.conn <;> rw [hconn] at hfail <;> simp at hfail <;>
      exact hfail.symm
  subst he
  exact errorsIs_foldr_wrapped _ _ msgs (by decide)

/-- Witness for C7: a concrete losing call wrapped by two layers. -/
theorem sentinel_identity_witness :
    errorsIs ((["request failed", "dial failed"]).foldr GoError.wrapped
        ErrNoConnReuse) ErrNoConnReuse = true :=
  sentinel_identity.2 Nat Unit Unit ⟨none⟩
    (Call.dial () "tcp" "example.com:443") ErrNoConnReuse rfl
    ["request failed", "dial failed"]

/-- Claim C8: a dialer seeded with a nil connection fails every take call,
the first included, with a nil connection and `ErrNoConnReuse`, exactly as
an already-spent dialer would. -/
theorem seeded_empty_always_fails (Conn Ctx Cfg : Type)
    (calls : List (Call Ctx Cfg)) :
    (run (NewSingleUseDialer (none : Option Conn)) calls).1 =
      List.replicate calls.length (none, some ErrNoConnReuse) := by
  rw [run_spent (NewSingleUseDialer none) calls rfl]

/-- Claim C9: a take call that returns an error (through either method)
mutates nothing: the dialer state after the call is exactly the state
before it. -/
theorem failing_take_preserves_state (Conn Ctx Cfg : Type)
    (d : SingleUseDialer Conn) (call : Call Ctx Cfg)
    (hfail : (step d call).1.2 ≠ none) :
    (step d call).2 = d := by
  cases call <;>
    simp only [step, DialContext, DialTLSContext] at * <;>
    cases hconn : d.conn <;> rw [hconn] at hfail <;> simp at hfail ⊢

/-- Witness for C9 at a concrete spent dialer. -/
theorem failing_take_preserves_state_witness :
    (step (⟨none⟩ : SingleUseDialer Nat)
        (Call.dialTLS () "tcp" "example.com:443" none : Call Unit Unit)).2 =
      ⟨none⟩ :=
  failing_take_preserves_state Nat Unit Unit ⟨none⟩
    (Call.dialTLS () "tcp" "example.com:443" none) (by decide)

/-- Claim C10: both methods draw from the same single slot: in any nonempty
sequence arbitrarily mixing `DialContext` and `DialTLSContext` calls on a
dialer seeded with connection `c`, exactly the first call returns `c` with
no error and every later call, through either method, returns a nil
connection and `ErrNoConnReuse`. -/
theorem mixed_methods_share_slot (Conn Ctx Cfg : Type) (c : Conn)
    (calls : List (Call Ctx Cfg)) (h : calls ≠ []) :
    (run (NewSingleUseDialer (some c)) calls).1 =
      (some c, none) ::
        List.replicate (calls.length - 1) (none, some ErrNoConnReuse) :=
  run_fresh_loaded c calls h

/-- Witness for C10: a TLS call followed by a plain call. -/
theorem mixed_methods_share_slot_witness :
    (run (NewSingleUseDialer (some 5))
        [(Call.dialTLS () "tcp" "example.com:443" (some ()) : Call Unit Unit),
          Call.dial () "udp" "other.host:80"]).1 =
      (some 5, none) ::
        List.replicate (2 - 1) ((none : Option Nat), some ErrNoConnReuse) :=
  mixed_methods_share_slot Nat Unit Unit 5 _ (by simp)

end Sud
